import Mathlib

/-
Verification of the Latin square game (src/latinsquare.c).

The C program stores the puzzle as `int arr[N][N]` (N = 9) together with a
side length `size ≤ 9`.  Cell encoding used throughout the program:
  * 0          — an Empty cell,
  * negative v — a Fixed (given) cell with numeric value |v| (displayed in
                 parentheses, refused by the clear command),
  * positive v — a Filled cell placed by the player (clearable).

We embed the grid as a total function `Nat → Nat → Int` (the C array is a
total 9×9 store; cells outside the playing area are initialised to 0 and
never touched, since all accesses are guarded by the range check).

`playStep` is the shallow embedding of one iteration of `play`
(src/latinsquare.c lines 127-267) after a command has been parsed by
`scanf`: the sentinel test, the range test, the occupied-cell analysis, the
row/column duplicate scan, the mutation, and the win scan, in the order the
C code performs them.  `runGame` folds `playStep` over a list of parsed
commands the way the tail-recursive `play` does, `none` standing for a
line `scanf` failed to parse (the code reports the format error and
re-prompts without touching the grid).  `readLatinSquare` embeds the loader
(lines 280-325): it validates only the side and that enough integers parse,
and copies the values verbatim.
-/

namespace LatinSquare

/-- The fixed compile-time bound `N` of the C program. -/
def maxSide : Nat := 9

/-- A grid: the `int arr[N][N]` store, as a total function. -/
abbrev Grid := Nat → Nat → Int

/-- Point update of a grid cell, the embedding of `arr[r][c] = v`. -/
def update (g : Grid) (r c : Nat) (v : Int) : Grid :=
  fun r' c' => if r' = r ∧ c' = c then v else g r' c'

/-- C `abs` on `int`, used by the duplicate scans and the display. -/
def cAbs (x : Int) : Int := if x < 0 then -x else x

/-- The row scan of `play` (lines 195-206): does row `row` contain a
non-empty cell whose absolute value equals `v`?  The scan does not exclude
the target cell. -/
def rowHasVal (g : Grid) (size row : Nat) (v : Int) : Bool :=
  (List.range size).any (fun t => g row t != 0 && cAbs (g row t) == v)

/-- The column scan of `play` (lines 209-220). -/
def colHasVal (g : Grid) (size col : Nat) (v : Int) : Bool :=
  (List.range size).any (fun t => g t col != 0 && cAbs (g t col) == v)

/-- `areRulesBroken` of `play` (lines 192-220): value `v` occurs (by
absolute value) in row `r` or in column `c`. -/
def rulesBroken (g : Grid) (size r c : Nat) (v : Int) : Bool :=
  rowHasVal g size r v || colHasVal g size c v

/-- The win scan of `play` (lines 242-255): no cell inside the playing
area is 0. -/
def isFull (g : Grid) (size : Nat) : Bool :=
  (List.range size).all (fun r => (List.range size).all (fun c => g r c != 0))

/-- The observable outcome of one `play` iteration on a parsed command. -/
inductive Outcome where
  /-- `0,0=0`: the grid is written out and the game ends (lines 142-146). -/
  | quit
  /-- range error on i, j or val (lines 149-154). -/
  | outOfRange
  /-- clear attempt on a negative (Fixed) cell (lines 160-168). -/
  | illegalClear
  /-- a successful clear: either the positive-cell clear (lines 173-180)
  or the fall-through `val = 0` assignment (lines 231-234). -/
  | cleared
  /-- insert attempt on a positive (Filled) cell (lines 181-187). -/
  | occupied
  /-- duplicate in row or column (lines 223-228). -/
  | ruleViolation
  /-- a successful insertion that does not complete the grid (lines
  236-239, 258-260). -/
  | inserted
  /-- a successful insertion that fills the last empty cell: the grid is
  written out and the game ends (lines 261-266). -/
  | won
deriving DecidableEq, Repr

/-- One iteration of `play` (src/latinsquare.c lines 141-267) on the parsed
command `i,j=v`, returning the outcome and the grid afterwards.  The
branches appear in the order the C code tests them; note that a negative
(Fixed) cell with `v ≠ 0` falls through the occupied-cell analysis into the
duplicate scan and the assignment, exactly as in the C code. -/
def playStep (size : Nat) (g : Grid) (i j v : Int) : Outcome × Grid :=
  if i = 0 ∧ j = 0 ∧ v = 0 then
    (Outcome.quit, g)
  else if i < 1 ∨ (size : Int) < i ∨ j < 1 ∨ (size : Int) < j ∨ v < 0 ∨ (size : Int) < v then
    (Outcome.outOfRange, g)
  else if g (i - 1).toNat (j - 1).toNat < 0 ∧ v = 0 then
    (Outcome.illegalClear, g)
  else if 0 < g (i - 1).toNat (j - 1).toNat ∧ v = 0 then
    (Outcome.cleared, update g (i - 1).toNat (j - 1).toNat 0)
  else if 0 < g (i - 1).toNat (j - 1).toNat then
    (Outcome.occupied, g)
  else if rulesBroken g size (i - 1).toNat (j - 1).toNat v = true then
    (Outcome.ruleViolation, g)
  else if isFull (update g (i - 1).toNat (j - 1).toNat v) size = true then
    (Outcome.won, update g (i - 1).toNat (j - 1).toNat v)
  else if v = 0 then
    (Outcome.cleared, update g (i - 1).toNat (j - 1).toNat v)
  else
    (Outcome.inserted, update g (i - 1).toNat (j - 1).toNat v)

/-- How a run of the game ends, seen from the outside. -/
inductive GameEnd where
  /-- the player entered `0,0=0`; the grid was saved and `play` returned. -/
  | savedQuit
  /-- the last empty cell was validly filled; the grid was saved and
  `play` returned. -/
  | savedWon
  /-- the command list is exhausted and `play` is blocked on `scanf`
  waiting for further input. -/
  | awaitingInput
deriving DecidableEq, Repr

/-- The game loop: `play` re-invokes itself recursively after every
non-terminating iteration (src/latinsquare.c lines 134, 152, 167, 178,
186, 226, 259); we fold `playStep` over the list of commands the player
will enter.  A `none` entry is a line `scanf` could not parse as
`%d,%d=%d` (lines 128-136): the code drains the line, reports the format
error and re-prompts, leaving the grid untouched. -/
def runGame (size : Nat) (g : Grid) : List (Option (Int × Int × Int)) → GameEnd × Grid
  | [] => (GameEnd.awaitingInput, g)
  | none :: rest => runGame size g rest
  | some (i, j, v) :: rest =>
    if (playStep size g i j v).fst = Outcome.quit then
      (GameEnd.savedQuit, (playStep size g i j v).snd)
    else if (playStep size g i j v).fst = Outcome.won then
      (GameEnd.savedWon, (playStep size g i j v).snd)
    else
      runGame size (playStep size g i j v).snd rest

/-- The loader `readLatinSquare` (src/latinsquare.c lines 280-325): the
side must satisfy `0 < n ≤ 9`, the array is zero-initialised, then `n·n`
integers are copied verbatim from the file (a shorter or unparsable value
list makes `fscanf` fail and the load abort).  No check whatsoever is made
on the cell values themselves. -/
def readLatinSquare (n : Int) (vals : List Int) : Option (Nat × Grid) :=
  if n ≤ 0 ∨ (maxSide : Int) < n then
    none
  else if vals.length < n.toNat * n.toNat then
    none
  else
    some (n.toNat,
      fun r c => if r < n.toNat ∧ c < n.toNat then vals.getD (r * n.toNat + c) 0 else 0)

/-- The all-empty grid (the zero-initialised array). -/
def zeroGrid : Grid := fun _ _ => 0

/-- Row-uniqueness half of the Latin-square invariant: in every row, no
two distinct non-empty cells share a numeric value (values compared by
`cAbs`, so Fixed and Filled compare equal when their numbers agree). -/
def rowsOk (g : Grid) (size : Nat) : Prop :=
  ∀ r < size, ∀ c₁ < size, ∀ c₂ < size,
    c₁ ≠ c₂ → g r c₁ ≠ 0 → g r c₂ ≠ 0 → cAbs (g r c₁) ≠ cAbs (g r c₂)

/-- Column-uniqueness half of the Latin-square invariant. -/
def colsOk (g : Grid) (size : Nat) : Prop :=
  ∀ c < size, ∀ r₁ < size, ∀ r₂ < size,
    r₁ ≠ r₂ → g r₁ c ≠ 0 → g r₂ c ≠ 0 → cAbs (g r₁ c) ≠ cAbs (g r₂ c)

/-- The Latin-square invariant: no duplicate value in any row or column. -/
def latinOk (g : Grid) (size : Nat) : Prop :=
  rowsOk g size ∧ colsOk g size

/-- Executable check for `rowsOk`, used to decide the invariant on
concrete grids. -/
def rowsOkB (g : Grid) (size : Nat) : Bool :=
  (List.range size).all fun r =>
    (List.range size).all fun c₁ =>
      (List.range size).all fun c₂ =>
        c₁ == c₂ || g r c₁ == 0 || g r c₂ == 0 || cAbs (g r c₁) != cAbs (g r c₂)

/-- Executable check for `colsOk`. -/
def colsOkB (g : Grid) (size : Nat) : Bool :=
  (List.range size).all fun c =>
    (List.range size).all fun r₁ =>
      (List.range size).all fun r₂ =>
        r₁ == r₂ || g r₁ c == 0 || g r₂ c == 0 || cAbs (g r₁ c) != cAbs (g r₂ c)

instance (g : Grid) (size : Nat) : Decidable (rowsOk g size) :=
  decidable_of_iff (rowsOkB g size = true) (by
    unfold rowsOkB rowsOk
    simp only [List.all_eq_true, List.mem_range, Bool.or_eq_true, beq_iff_eq, bne_iff_ne]
    constructor
    · intro h r hr c₁ h₁ c₂ h₂ hne hz₁ hz₂
      have hd := h r hr c₁ h₁ c₂ h₂
      tauto
    · intro h r hr c₁ h₁ c₂ h₂
      have hd := h r hr c₁ h₁ c₂ h₂
      tauto)

instance (g : Grid) (size : Nat) : Decidable (colsOk g size) :=
  decidable_of_iff (colsOkB g size = true) (by
    unfold colsOkB colsOk
    simp only [List.all_eq_true, List.mem_range, Bool.or_eq_true, beq_iff_eq, bne_iff_ne]
    constructor
    · intro h c hc r₁ h₁ r₂ h₂ hne hz₁ hz₂
      have hd := h c hc r₁ h₁ r₂ h₂
      tauto
    · intro h c hc r₁ h₁ r₂ h₂
      have hd := h c hc r₁ h₁ r₂ h₂
      tauto)

instance (g : Grid) (size : Nat) : Decidable (latinOk g size) := by
  unfold latinOk
  infer_instance

/-- A 2×2 grid whose top-left cell is the Fixed value 1 (stored as -1, the
program's encoding of a given cell) and whose other cells are empty. -/
def fixedGrid2 : Grid := fun r c => if r = 0 ∧ c = 0 then -1 else 0

lemma update_self (g : Grid) (r c : Nat) (v : Int) : update g r c v r c = v := by
  simp [update]

lemma update_other {g : Grid} {r c : Nat} {v : Int} {r' c' : Nat}
    (h : ¬(r' = r ∧ c' = c)) : update g r c v r' c' = g r' c' := by
  simp [update, h]

lemma cAbs_eq_zero {x : Int} : cAbs x = 0 ↔ x = 0 := by
  unfold cAbs
  split <;> omega

lemma cAbs_of_pos {v : Int} (h : 0 < v) : cAbs v = v := by
  unfold cAbs
  split <;> omega

lemma rowHasVal_true_iff (g : Grid) (size row : Nat) (v : Int) :
    rowHasVal g size row v = true ↔ ∃ t < size, g row t ≠ 0 ∧ cAbs (g row t) = v := by
  simp [rowHasVal, List.any_eq_true, List.mem_range, Bool.and_eq_true, bne_iff_ne, beq_iff_eq]

lemma colHasVal_true_iff (g : Grid) (size col : Nat) (v : Int) :
    colHasVal g size col v = true ↔ ∃ t < size, g t col ≠ 0 ∧ cAbs (g t col) = v := by
  simp [colHasVal, List.any_eq_true, List.mem_range, Bool.and_eq_true, bne_iff_ne, beq_iff_eq]

lemma rowHasVal_false (g : Grid) (size row : Nat) (v : Int)
    (h : rowHasVal g size row v = false) :
    ∀ t < size, g row t ≠ 0 → cAbs (g row t) ≠ v := by
  rw [← Bool.not_eq_true, rowHasVal_true_iff] at h
  push_neg at h
  exact h

lemma colHasVal_false (g : Grid) (size col : Nat) (v : Int)
    (h : colHasVal g size col v = false) :
    ∀ t < size, g t col ≠ 0 → cAbs (g t col) ≠ v := by
  rw [← Bool.not_eq_true, colHasVal_true_iff] at h
  push_neg at h
  exact h

lemma rulesBroken_false_iff (g : Grid) (size r c : Nat) (v : Int) :
    rulesBroken g size r c v = false ↔
      rowHasVal g size r v = false ∧ colHasVal g size c v = false := by
  simp [rulesBroken]

/-- Scanning for the value 0 never finds anything: the scans skip empty
cells, and a non-empty cell has non-zero absolute value. -/
lemma rulesBroken_zero (g : Grid) (size r c : Nat) :
    rulesBroken g size r c 0 = false := by
  rw [rulesBroken_false_iff]
  constructor
  · rw [← Bool.not_eq_true, rowHasVal_true_iff]
    rintro ⟨t, -, hnz, habs⟩
    exact hnz (cAbs_eq_zero.mp habs)
  · rw [← Bool.not_eq_true, colHasVal_true_iff]
    rintro ⟨t, -, hnz, habs⟩
    exact hnz (cAbs_eq_zero.mp habs)

lemma isFull_iff (g : Grid) (size : Nat) :
    isFull g size = true ↔ ∀ r < size, ∀ c < size, g r c ≠ 0 := by
  simp [isFull, List.all_eq_true, List.mem_range, bne_iff_ne]

lemma isFull_eq_false {g : Grid} {size r c : Nat}
    (hr : r < size) (hc : c < size) (hz : g r c = 0) : isFull g size = false := by
  rw [← Bool.not_eq_true, isFull_iff]
  intro h
  exact h r hr c hc hz

/-- Inversion of a successful insertion: if one `play` iteration reports
`inserted` or `won`, then the command was in range with `1 ≤ v`, the target
cell was not a positive (Filled) cell, the duplicate scan came back clean,
the resulting grid is the point update, and the iteration reports `won`
exactly when the updated grid is full. -/
lemma playStep_insert_inv {size : Nat} {g : Grid} {i j v : Int} {o : Outcome} {g' : Grid}
    (h : playStep size g i j v = (o, g'))
    (ho : o = Outcome.inserted ∨ o = Outcome.won) :
    1 ≤ i ∧ i ≤ (size : Int) ∧ 1 ≤ j ∧ j ≤ (size : Int) ∧ 1 ≤ v ∧ v ≤ (size : Int) ∧
    ¬ 0 < g (i - 1).toNat (j - 1).toNat ∧
    rulesBroken g size (i - 1).toNat (j - 1).toNat v = false ∧
    g' = update g (i - 1).toNat (j - 1).toNat v ∧
    (o = Outcome.won ↔ isFull g' size = true) := by
  unfold playStep at h
  split_ifs at h with h1 h2 h3 h4 h5 h6 h7 h8
  · cases h
    rcases ho with hx | hx <;> exact Outcome.noConfusion hx
  · cases h
    rcases ho with hx | hx <;> exact Outcome.noConfusion hx
  · cases h
    rcases ho with hx | hx <;> exact Outcome.noConfusion hx
  · cases h
    rcases ho with hx | hx <;> exact Outcome.noConfusion hx
  · cases h
    rcases ho with hx | hx <;> exact Outcome.noConfusion hx
  · cases h
    rcases ho with hx | hx <;> exact Outcome.noConfusion hx
  · -- the `won` branch
    cases h
    push_neg at h2
    obtain ⟨hi1, hi2, hj1, hj2, hv0, hv2⟩ := h2
    rw [Bool.not_eq_true] at h6
    have hr : (i - 1).toNat < size := by omega
    have hc : (j - 1).toNat < size := by omega
    have hv1 : 1 ≤ v := by
      by_contra hv
      have hv' : v = 0 := by omega
      subst hv'
      rw [isFull_eq_false hr hc (update_self g _ _ _)] at h7
      exact Bool.noConfusion h7
    exact ⟨by omega, by omega, by omega, by omega, hv1, hv2, h5, h6, rfl,
      Iff.intro (fun _ => h7) (fun _ => rfl)⟩
  · -- the fall-through `v = 0` clear branch cannot report inserted or won
    cases h
    rcases ho with hx | hx <;> exact Outcome.noConfusion hx
  · -- the `inserted` branch
    cases h
    push_neg at h2
    obtain ⟨hi1, hi2, hj1, hj2, hv0, hv2⟩ := h2
    rw [Bool.not_eq_true] at h6 h7
    refine ⟨by omega, by omega, by omega, by omega, by omega, hv2, h5, h6, rfl, ?_⟩
    constructor
    · intro hx
      exact absurd hx (by decide)
    · intro hx
      rw [hx] at h7
      exact Bool.noConfusion h7

/-- An in-range clear command aimed at a negative (Fixed) cell always hits
the illegal-clear branch and leaves the grid untouched. -/
lemma playStep_clear_fixed {size : Nat} {g : Grid} {i j : Int}
    (hi1 : 1 ≤ i) (hi2 : i ≤ (size : Int)) (hj1 : 1 ≤ j) (hj2 : j ≤ (size : Int))
    (hneg : g (i - 1).toNat (j - 1).toNat < 0) :
    playStep size g i j 0 = (Outcome.illegalClear, g) := by
  unfold playStep
  split_ifs with g1 g2 g3
  · exfalso; omega
  · exfalso; omega
  · rfl
  all_goals exact absurd ⟨hneg, rfl⟩ g3

/-- An in-range clear command aimed at a positive (Filled) cell always hits
the clear branch and zeroes exactly that cell. -/
lemma playStep_clear_filled {size : Nat} {g : Grid} {i j : Int}
    (hi1 : 1 ≤ i) (hi2 : i ≤ (size : Int)) (hj1 : 1 ≤ j) (hj2 : j ≤ (size : Int))
    (hpos : 0 < g (i - 1).toNat (j - 1).toNat) :
    playStep size g i j 0 = (Outcome.cleared, update g (i - 1).toNat (j - 1).toNat 0) := by
  unfold playStep
  split_ifs with g1 g2 g3 g4
  · exfalso; omega
  · exfalso; omega
  · exfalso; omega
  · rfl
  all_goals exact absurd ⟨hpos, rfl⟩ g4

/-- An in-range clear command aimed at an Empty cell falls through every
occupied-cell branch and the duplicate scan, re-assigns 0 to the cell, and
is reported as a successful clear. -/
lemma playStep_clear_empty {size : Nat} {g : Grid} {i j : Int}
    (hi1 : 1 ≤ i) (hi2 : i ≤ (size : Int)) (hj1 : 1 ≤ j) (hj2 : j ≤ (size : Int))
    (hz : g (i - 1).toNat (j - 1).toNat = 0) :
    playStep size g i j 0 = (Outcome.cleared, update g (i - 1).toNat (j - 1).toNat 0) := by
  have hr : (i - 1).toNat < size := by omega
  have hc : (j - 1).toNat < size := by omega
  unfold playStep
  split_ifs with g1 g2 g3 g4 g5 g6 g7 g8
  · exfalso; omega
  · exfalso; omega
  · exfalso; omega
  · exfalso; omega
  · exfalso; omega
  · exfalso
    rw [rulesBroken_zero] at g6
    exact Bool.noConfusion g6
  · exfalso
    rw [isFull_eq_false hr hc (update_self g _ _ _)] at g7
    exact Bool.noConfusion g7
  · rfl
  · exact absurd rfl g8

/-- Claim C2: for every grid in which no row and no column contains a
duplicate among its non-Empty cells (Fixed and Filled compared by numeric
value), and for every placement command the validation logic accepts (one
whose iteration reports `inserted` or `won`), the grid after the placement
still contains no duplicate value in any row or column. -/
theorem claim_C2_invariant_preserved {size : Nat} {g : Grid} {i j v : Int}
    (ho : (playStep size g i j v).fst = Outcome.inserted ∨
          (playStep size g i j v).fst = Outcome.won)
    (hinv : latinOk g size) : latinOk (playStep size g i j v).snd size := by
  obtain ⟨hi1, hi2, hj1, hj2, hv1, hv2, hcell, hrb, hg', -⟩ :=
    playStep_insert_inv (rfl :
      playStep size g i j v = ((playStep size g i j v).fst, (playStep size g i j v).snd)) ho
  have hg2 : (playStep size g i j v).snd = update g (i - 1).toNat (j - 1).toNat v := hg'
  rw [hg2]
  obtain ⟨hrow, hcol⟩ := (rulesBroken_false_iff g size (i - 1).toNat (j - 1).toNat v).mp hrb
  have hrowS := rowHasVal_false g size (i - 1).toNat v hrow
  have hcolS := colHasVal_false g size (j - 1).toNat v hcol
  have hvpos : (0 : Int) < v := by omega
  constructor
  · intro r' hr' c₁ hc₁ c₂ hc₂ hne hz₁ hz₂
    simp only [update] at hz₁ hz₂ ⊢
    by_cases e₁ : r' = (i - 1).toNat ∧ c₁ = (j - 1).toNat <;>
      by_cases e₂ : r' = (i - 1).toNat ∧ c₂ = (j - 1).toNat
    · exact absurd (e₁.2.trans e₂.2.symm) hne
    · rw [if_pos e₁] at hz₁ ⊢
      rw [if_neg e₂] at hz₂ ⊢
      obtain ⟨hR, hC⟩ := e₁
      subst hR
      rw [cAbs_of_pos hvpos]
      intro heq
      exact hrowS c₂ hc₂ hz₂ heq.symm
    · rw [if_neg e₁] at hz₁ ⊢
      rw [if_pos e₂] at hz₂ ⊢
      obtain ⟨hR, hC⟩ := e₂
      subst hR
      rw [cAbs_of_pos hvpos]
      intro heq
      exact hrowS c₁ hc₁ hz₁ heq
    · rw [if_neg e₁] at hz₁ ⊢
      rw [if_neg e₂] at hz₂ ⊢
      exact hinv.1 r' hr' c₁ hc₁ c₂ hc₂ hne hz₁ hz₂
  · intro c' hc' r₁ h₁ r₂ h₂ hne hz₁ hz₂
    simp only [update] at hz₁ hz₂ ⊢
    by_cases e₁ : r₁ = (i - 1).toNat ∧ c' = (j - 1).toNat <;>
      by_cases e₂ : r₂ = (i - 1).toNat ∧ c' = (j - 1).toNat
    · exact absurd (e₁.1.trans e₂.1.symm) hne
    · rw [if_pos e₁] at hz₁ ⊢
      rw [if_neg e₂] at hz₂ ⊢
      obtain ⟨hR, hC⟩ := e₁
      subst hC
      rw [cAbs_of_pos hvpos]
      intro heq
      exact hcolS r₂ h₂ hz₂ heq.symm
    · rw [if_neg e₁] at hz₁ ⊢
      rw [if_pos e₂] at hz₂ ⊢
      obtain ⟨hR, hC⟩ := e₂
      subst hC
      rw [cAbs_of_pos hvpos]
      intro heq
      exact hcolS r₁ h₁ hz₁ heq
    · rw [if_neg e₁] at hz₁ ⊢
      rw [if_neg e₂] at hz₂ ⊢
      exact hinv.2 c' hc' r₁ h₁ r₂ h₂ hne hz₁ hz₂

/-- Witness for C2: on the empty 2×2 grid the placement `1,1=1` is
accepted, and the resulting grid still satisfies the invariant. -/
theorem claim_C2_witness : latinOk (playStep 2 zeroGrid 1 1 1).snd 2 :=
  claim_C2_invariant_preserved (Or.inl (by decide)) (by decide)

/-- Claim C1 is a code bug: on a 2×2 grid whose cell (1,1) is the Fixed
value 1 (stored as -1) the in-range placement `1,1=2` is NOT rejected with
the occupied-cell error.  The negative-cell branch of `play` only returns
for `val == 0`, so a Fixed cell with a non-duplicate value falls through
the occupied check and is overwritten: the iteration reports a successful
insertion and the cell changes from -1 to 2. -/
theorem claim_C1_fixed_overwrite_bug :
    fixedGrid2 0 0 = -1 ∧
    (playStep 2 fixedGrid2 1 1 2).fst = Outcome.inserted ∧
    (playStep 2 fixedGrid2 1 1 2).snd 0 0 = 2 := by
  decide

/-- Claim C3: the win condition is true exactly when every cell is
non-Empty; after a successful fill the iteration reports `won` exactly when
the updated grid is full, and the game loop then terminates (saving the
grid) on `won` and keeps looping on `inserted`. -/
theorem claim_C3_win_check {size : Nat} {g : Grid} {i j v : Int}
    (ho : (playStep size g i j v).fst = Outcome.inserted ∨
          (playStep size g i j v).fst = Outcome.won) :
    ((playStep size g i j v).fst = Outcome.won ↔
      isFull (playStep size g i j v).snd size = true) ∧
    (isFull (playStep size g i j v).snd size = true ↔
      ∀ r < size, ∀ c < size, (playStep size g i j v).snd r c ≠ 0) ∧
    (∀ rest, (playStep size g i j v).fst = Outcome.won →
      runGame size g (some (i, j, v) :: rest) =
        (GameEnd.savedWon, (playStep size g i j v).snd)) ∧
    (∀ rest, (playStep size g i j v).fst = Outcome.inserted →
      runGame size g (some (i, j, v) :: rest) =
        runGame size (playStep size g i j v).snd rest) := by
  obtain ⟨-, -, -, -, -, -, -, -, -, hiff⟩ :=
    playStep_insert_inv (rfl :
      playStep size g i j v = ((playStep size g i j v).fst, (playStep size g i j v).snd)) ho
  have hiffC : ((playStep size g i j v).fst = Outcome.won ↔
      isFull (playStep size g i j v).snd size = true) := hiff
  refine ⟨hiffC, isFull_iff _ _, ?_, ?_⟩
  · intro rest hwon
    simp only [runGame, hwon]
    rfl
  · intro rest hins
    simp only [runGame, hins]
    rfl

/-- Witness for C3: on the empty 1×1 grid the placement `1,1=1` fills the
last empty cell, the win scan fires, and the run terminates saving the
grid. -/
theorem claim_C3_witness :
    ((playStep 1 zeroGrid 1 1 1).fst = Outcome.won ↔
      isFull (playStep 1 zeroGrid 1 1 1).snd 1 = true) ∧
    runGame 1 zeroGrid [some (1, 1, 1)] = (GameEnd.savedWon, (playStep 1 zeroGrid 1 1 1).snd) :=
  ⟨(claim_C3_win_check (Or.inr (by decide))).1,
   (claim_C3_win_check (Or.inr (by decide))).2.2.1 [] (by decide)⟩

/-- Counterexample to C4 as stated: the loader maps the initial value 1 to
a positive (Filled) cell, not to an immutable Fixed cell — on a side-1 grid
loaded from `[1]`, the player command `1,1=0` clears the cell to Empty. -/
theorem claim_C4_counterexample :
    (readLatinSquare 1 [1]).map (fun p => (p.1, p.2 0 0)) = some (1, 1) ∧
    (readLatinSquare 1 [1]).map
        (fun p => ((playStep p.1 p.2 1 1 0).fst, (playStep p.1 p.2 1 1 0).snd 0 0)) =
      some (Outcome.cleared, 0) := by
  decide

/-- Claim C4, amended: every successfully loaded grid holds the initial
values verbatim (so an initial 0 is Empty and everything outside the
playing area stays 0); an initial negative value is a Fixed cell — every
in-range clear command on it fails with the illegal-clear error and leaves
the grid unchanged — while an initial positive value is a player-clearable
Filled cell: an in-range clear on it is reported as a successful clear. -/
theorem claim_C4_amended {n : Int} {vals : List Int} {size : Nat} {g : Grid}
    (h : readLatinSquare n vals = some (size, g)) :
    (∀ r c, r < size → c < size → g r c = vals.getD (r * size + c) 0) ∧
    (∀ r c, ¬(r < size ∧ c < size) → g r c = 0) ∧
    (∀ i j : Int, 1 ≤ i → i ≤ (size : Int) → 1 ≤ j → j ≤ (size : Int) →
      g (i - 1).toNat (j - 1).toNat < 0 →
      playStep size g i j 0 = (Outcome.illegalClear, g)) ∧
    (∀ i j : Int, 1 ≤ i → i ≤ (size : Int) → 1 ≤ j → j ≤ (size : Int) →
      0 < g (i - 1).toNat (j - 1).toNat →
      (playStep size g i j 0).fst = Outcome.cleared) := by
  unfold readLatinSquare at h
  split_ifs at h with hA hB
  injection h with h'
  injection h' with hsize hgrid
  subst hsize
  subst hgrid
  refine ⟨?_, ?_, ?_, ?_⟩
  · intro r c hr hc
    exact if_pos ⟨hr, hc⟩
  · intro r c hrc
    exact if_neg hrc
  · intro i j hi1 hi2 hj1 hj2 hneg
    exact playStep_clear_fixed hi1 hi2 hj1 hj2 hneg
  · intro i j hi1 hi2 hj1 hj2 hpos
    rw [playStep_clear_filled hi1 hi2 hj1 hj2 hpos]

/-- Witness for the amended C4: loading the 2×2 description
`[-1, 2, 0, 0]` succeeds, and clearing the Fixed cell (1,1) fails with the
illegal-clear error, leaving the grid unchanged. -/
theorem claim_C4_witness :
    playStep 2 ((readLatinSquare 2 [-1, 2, 0, 0]).getD (0, zeroGrid)).2 1 1 0 =
      (Outcome.illegalClear, ((readLatinSquare 2 [-1, 2, 0, 0]).getD (0, zeroGrid)).2) :=
  (claim_C4_amended (rfl : readLatinSquare 2 [-1, 2, 0, 0] =
      some (((readLatinSquare 2 [-1, 2, 0, 0]).getD (0, zeroGrid)).1,
        ((readLatinSquare 2 [-1, 2, 0, 0]).getD (0, zeroGrid)).2))).2.2.1
    1 1 (by decide) (by decide) (by decide) (by decide) (by decide)

/-- Counterexample to C5 as stated: the in-range clear `1,1=0` on the
empty cell (1,1) of the empty 1×1 grid is NOT reported as an error — the
command falls through to the assignment, the iteration reports a
successful clear, and the cell is (still) 0.  No nothing-to-clear error
exists anywhere in the code. -/
theorem claim_C5_counterexample :
    (playStep 1 zeroGrid 1 1 0).fst = Outcome.cleared ∧
    (playStep 1 zeroGrid 1 1 0).snd 0 0 = 0 := by
  decide

/-- Claim C5, amended: an in-range clear command whose target cell is
Empty is accepted and reported as a successful clear (the same report as a
real clear), leaving every cell of the grid unchanged. -/
theorem claim_C5_amended {size : Nat} {g : Grid} {i j : Int}
    (hi1 : 1 ≤ i) (hi2 : i ≤ (size : Int)) (hj1 : 1 ≤ j) (hj2 : j ≤ (size : Int))
    (hz : g (i - 1).toNat (j - 1).toNat = 0) :
    (playStep size g i j 0).fst = Outcome.cleared ∧
    ∀ r c, (playStep size g i j 0).snd r c = g r c := by
  have key := playStep_clear_empty hi1 hi2 hj1 hj2 hz
  constructor
  · rw [key]
  · intro r c
    rw [key]
    by_cases e : r = (i - 1).toNat ∧ c = (j - 1).toNat
    · simp only [update]
      rw [if_pos e]
      obtain ⟨rfl, rfl⟩ := e
      exact hz.symm
    · simp only [update]
      rw [if_neg e]

/-- Witness for the amended C5: on the empty 3×3 grid the clear `2,3=0`
is reported as a successful clear and changes nothing. -/
theorem claim_C5_witness :
    (playStep 3 zeroGrid 2 3 0).fst = Outcome.cleared ∧
    (playStep 3 zeroGrid 2 3 0).snd 1 2 = zeroGrid 1 2 :=
  ⟨(claim_C5_amended (by decide) (by decide) (by decide) (by decide) (by decide)).1,
   (claim_C5_amended (by decide) (by decide) (by decide) (by decide) (by decide)).2 1 2⟩

/-- Counterexample to C6 as stated: the cell value 5 is outside [0, side]
for side 1, yet loading the side-1 description `[5]` succeeds and stores
the 5 verbatim — no invalid-cell-value check exists in the loader. -/
theorem claim_C6_counterexample :
    (readLatinSquare 1 [5]).map (fun p => (p.1, p.2 0 0)) = some (1, 5) := by
  decide

/-- Claim C6, amended: the loader validates only the side (it must satisfy
`0 < n ≤ 9`) and that `n·n` integers are present; the cell values are
never inspected, so whether loading succeeds depends only on the side and
on how many values the file provides, and any in-range side with enough
values loads successfully regardless of the cell values. -/
theorem claim_C6_amended (n : Int) (vals vals' : List Int) :
    (vals.length = vals'.length →
      (readLatinSquare n vals).isSome = (readLatinSquare n vals').isSome) ∧
    (1 ≤ n → n ≤ (maxSide : Int) → n.toNat * n.toNat ≤ vals.length →
      (readLatinSquare n vals).isSome = true) := by
  constructor
  · intro hlen
    unfold readLatinSquare
    rw [hlen]
    split_ifs <;> rfl
  · intro h1 h2 h3
    have hA : ¬(n ≤ 0 ∨ (maxSide : Int) < n) := by
      simp only [maxSide] at h2 ⊢
      omega
    have hB : ¬(vals.length < n.toNat * n.toNat) := by omega
    unfold readLatinSquare
    rw [if_neg hA, if_neg hB]
    rfl

/-- Witness for the amended C6: `[5]` and `[0]` load alike for side 1, and
the out-of-range-valued `[5]` loads successfully. -/
theorem claim_C6_witness :
    (readLatinSquare 1 [5]).isSome = (readLatinSquare 1 [0]).isSome ∧
    (readLatinSquare 1 [5]).isSome = true :=
  ⟨(claim_C6_amended 1 [5] [0]).1 rfl,
   (claim_C6_amended 1 [5] [0]).2 (by decide) (by decide) (by decide)⟩

/-- Counterexample to C7 as stated: loading the side-1 description `[-1]`
(its single cell pre-filled as the Fixed value 1) yields a grid that
already satisfies the full-grid win predicate, yet with zero commands the
game does not terminate: `play` blocks on `scanf` awaiting input — there
is no win check before the first command is read. -/
theorem claim_C7_counterexample :
    (readLatinSquare 1 [-1]).map (fun p => (isFull p.2 p.1, (runGame p.1 p.2 []).fst)) =
      some (true, GameEnd.awaitingInput) := by
  decide

/-- Claim C7, amended: the pre-filled side-1 grid satisfies the
every-cell-non-Empty win predicate immediately, but the game checks the
win condition only after a successful fill, so it sits awaiting input
until the player enters a command; the save-and-quit sentinel `0,0=0`
then persists the grid and terminates the game. -/
theorem claim_C7_amended :
    (readLatinSquare 1 [-1]).map
        (fun p => (isFull p.2 p.1, (runGame p.1 p.2 []).fst,
          (runGame p.1 p.2 [some (0, 0, 0)]).fst)) =
      some (true, GameEnd.awaitingInput, GameEnd.savedQuit) := by
  decide

/-- Claim C8: placing a value into an Empty cell (a placement the
validation accepts) and then clearing that same cell returns the grid to
its exact prior state. -/
theorem claim_C8_round_trip {size : Nat} {g : Grid} {i j v : Int}
    (hempty : g (i - 1).toNat (j - 1).toNat = 0)
    (ho : (playStep size g i j v).fst = Outcome.inserted ∨
          (playStep size g i j v).fst = Outcome.won) :
    (playStep size (playStep size g i j v).snd i j 0).fst = Outcome.cleared ∧
    ∀ r c, (playStep size (playStep size g i j v).snd i j 0).snd r c = g r c := by
  obtain ⟨hi1, hi2, hj1, hj2, hv1, hv2, -, -, hg', -⟩ :=
    playStep_insert_inv (rfl :
      playStep size g i j v = ((playStep size g i j v).fst, (playStep size g i j v).snd)) ho
  have hg2 : (playStep size g i j v).snd = update g (i - 1).toNat (j - 1).toNat v := hg'
  rw [hg2]
  have hpos : 0 < update g (i - 1).toNat (j - 1).toNat v (i - 1).toNat (j - 1).toNat := by
    rw [update_self]
    omega
  have key := playStep_clear_filled hi1 hi2 hj1 hj2 hpos
  constructor
  · rw [key]
  · intro r c
    rw [key]
    by_cases e : r = (i - 1).toNat ∧ c = (j - 1).toNat
    · simp only [update]
      rw [if_pos e]
      obtain ⟨rfl, rfl⟩ := e
      exact hempty.symm
    · simp only [update]
      rw [if_neg e, if_neg e]

/-- Witness for C8: place 1 at (1,1) of the empty 2×2 grid, then clear
it; cell (1,1) is back to its prior (empty) value. -/
theorem claim_C8_witness :
    (playStep 2 (playStep 2 zeroGrid 1 1 1).snd 1 1 0).fst = Outcome.cleared ∧
    (playStep 2 (playStep 2 zeroGrid 1 1 1).snd 1 1 0).snd 0 0 = zeroGrid 0 0 :=
  ⟨(claim_C8_round_trip (by decide) (Or.inl (by decide))).1,
   (claim_C8_round_trip (by decide) (Or.inl (by decide))).2 0 0⟩

/-- Claim C9: every play-time command that is rejected with an error —
out-of-range coordinates or value, an insert into an occupied (Filled)
cell, a clear of a Fixed cell, or a duplicate value — leaves the grid
exactly as it was, and a malformed command line likewise re-prompts
without touching the grid: validation happens entirely before any
mutation. -/
theorem claim_C9_errors_frame {size : Nat} {g : Grid} {i j v : Int}
    (ho : (playStep size g i j v).fst = Outcome.outOfRange ∨
          (playStep size g i j v).fst = Outcome.illegalClear ∨
          (playStep size g i j v).fst = Outcome.occupied ∨
          (playStep size g i j v).fst = Outcome.ruleViolation) :
    (playStep size g i j v).snd = g ∧
    ∀ rest, runGame size g (none :: rest) = runGame size g rest := by
  refine ⟨?_, fun rest => rfl⟩
  unfold playStep at ho ⊢
  split_ifs at ho ⊢
  all_goals first
    | rfl
    | (rcases ho with hx | hx | hx | hx <;> exact hx.elim)

/-- Witness for C9: the out-of-range command `2,1=1` on the 1×1 grid is
rejected and the grid is unchanged; a malformed line is skipped. -/
theorem claim_C9_witness :
    (playStep 1 zeroGrid 2 1 1).snd = zeroGrid ∧
    runGame 1 zeroGrid [none] = runGame 1 zeroGrid [] :=
  ⟨(claim_C9_errors_frame (Or.inl (by decide))).1,
   (claim_C9_errors_frame (i := 2) (j := 1) (v := 1) (Or.inl (by decide))).2 []⟩

/-- Claim C10 (frame property): a successfully applied place or clear at
(i,j) changes at most the single targeted cell — every other cell is
identical before and after (and the side, a parameter the program never
reassigns, is unchanged). -/
theorem claim_C10_frame {size : Nat} {g : Grid} {i j v : Int}
    (ho : (playStep size g i j v).fst = Outcome.cleared ∨
          (playStep size g i j v).fst = Outcome.inserted ∨
          (playStep size g i j v).fst = Outcome.won) :
    ∀ r c, ¬(r = (i - 1).toNat ∧ c = (j - 1).toNat) →
      (playStep size g i j v).snd r c = g r c := by
  intro r c hrc
  unfold playStep
  split_ifs
  all_goals first
    | rfl
    | exact update_other hrc

/-- Witness for C10: clearing cell (1,1) of a 2×2 grid leaves cell (2,2)
untouched. -/
theorem claim_C10_witness :
    (playStep 2 (update zeroGrid 0 0 1) 1 1 0).snd 1 1 = update zeroGrid 0 0 1 1 1 :=
  claim_C10_frame (Or.inl (by decide)) 1 1 (by decide)

end LatinSquare
